import Mathlib

/-!
Shallow embedding of the CueConnect / Billiards Hub mobile client
(tylerdipietro/CueConnectFrontend).

The repository is a React Native client; the functions embedded here are the
socket event handlers, the request-building helpers and the operation
handlers of `App.tsx`, `VenueDetailScreen.tsx`,
`screens/VenueDetailScreen.tsx`, `screens/HomeScreen.tsx` and
`screens/PayForTableScreen.tsx`.  `fetch` is modelled by passing the
response (or the thrown failure) in as an environment value; the requests a
handler issues, the modal alerts it raises and the console logs it writes
are collected in the returned record.  JavaScript numbers carried by the
data model are embedded as `Int` (a missing or non-number value, which every
guard in these files treats like a missing value, is `none`).
-/

namespace CueConnect

/-- JavaScript `a || b` on a possibly missing string: an absent value and the
empty string are both falsy. -/
def jsOr (a : Option String) (b : String) : String :=
  match a with
  | some s => if s = "" then b else s
  | none => b

/-- JavaScript truthiness of a `string | null` value: `null` and `""` are
falsy, every other string is truthy. -/
def jsTruthyStr (o : Option String) : Bool :=
  match o with
  | some s => s ≠ ""
  | none => false

/-- Backend base URL, `App.tsx` line 55 (the same constant is repeated in
every screen). -/
def BACKEND_BASE_URL : String := "https://api.tylerdipietro.com"

/-- `QueueUser` (`screens/VenueDetailScreen.tsx`): one populated queue entry.
`displayName` is kept optional because the render code guards it with
`|| 'Unnamed User'`. -/
structure QueueUser where
  _id : String
  displayName : Option String
  deriving Repr, DecidableEq

/-- `CurrentPlayers` (`screens/VenueDetailScreen.tsx`): the two player slots,
each a `string | null`. -/
structure CurrentPlayers where
  player1Id : Option String
  player2Id : Option String
  deriving Repr, DecidableEq

/-- `PlayerDetails` (`screens/VenueDetailScreen.tsx`): populated player data. -/
structure PlayerDetails where
  _id : String
  displayName : String
  deriving Repr, DecidableEq

/-- The table status union type of the `Table` interface. -/
inductive TableStatus where
  | available
  | occupied
  | queued
  | in_play
  | awaiting_confirmation
  | maintenance
  | out_of_order
  deriving Repr, DecidableEq

/-- The literal text of each status value. -/
def statusString : TableStatus → String
  | .available => "available"
  | .occupied => "occupied"
  | .queued => "queued"
  | .in_play => "in_play"
  | .awaiting_confirmation => "awaiting_confirmation"
  | .maintenance => "maintenance"
  | .out_of_order => "out_of_order"

/-- The `Table` interface of `screens/VenueDetailScreen.tsx`.  `tableNumber`
(a `string | number` in the source) is embedded as a string;
`currentPlayers` is optional because the render code anticipates a missing
value (`item.currentPlayers || {...}`); `perGameCost` is optional because
the code checks `typeof item.perGameCost === 'number'` before using it. -/
structure Table where
  _id : String
  venueId : String
  tableNumber : String
  esp32DeviceId : Option String
  status : TableStatus
  currentPlayers : Option CurrentPlayers
  currentSessionId : Option String
  queue : List QueueUser
  perGameCost : Option Int
  player1Details : Option PlayerDetails
  player2Details : Option PlayerDetails
  deriving Repr, DecidableEq

/-! ### Socket table-list update handlers (claim C2)

Both revisions of the venue-detail screen install the same two listeners
(`VenueDetailScreen.tsx` lines 220-247 and `screens/VenueDetailScreen.tsx`
lines 214-234): each maps the previous table list, substituting the received
table object for the entry with the same `_id`. -/

/-- The `queueUpdate` socket listener body:
`prevTables.map(table => table._id === updatedTable._id ? updatedTable : table)`. -/
def handleQueueUpdate (prevTables : List Table) (updatedTable : Table) : List Table :=
  prevTables.map fun table =>
    if table._id = updatedTable._id then updatedTable else table

/-- The `tableStatusUpdate` socket listener body, the same map as
`handleQueueUpdate`. -/
def handleTableStatusUpdate (prevTables : List Table) (updatedTable : Table) : List Table :=
  prevTables.map fun table =>
    if table._id = updatedTable._id then updatedTable else table

/-! ### The App user state and the token balance listener (claim C8) -/

/-- The fields of the Firebase auth user object that this client reads. -/
structure FirebaseUser where
  uid : String
  displayName : Option String
  email : Option String
  deriving Repr, DecidableEq

/-- The `User` wrapper type of `types.ts`: the Firebase user object plus the
backend profile fields. -/
structure User where
  firebaseAuthUser : FirebaseUser
  isAdmin : Bool
  tokenBalance : Int
  stripeCustomerId : Option String
  deriving Repr, DecidableEq

/-- The `tokenBalanceUpdate` socket listener of `App.tsx` lines 356-364:
`setUser(prevUser => prevUser ? { ...prevUser, tokenBalance: data.newBalance } : null)`. -/
def handleTokenBalanceUpdate (prevUser : Option User) (newBalance : Int) : Option User :=
  match prevUser with
  | some u => some { u with tokenBalance := newBalance }
  | none => none

/-! ### fetchUserProfile (claim C10), App.tsx lines 211-240 -/

/-- The profile fields this client reads from `/api/user/profile`. -/
structure AuthProfile where
  isAdmin : Bool
  tokenBalance : Int
  stripeCustomerId : Option String
  deriving Repr, DecidableEq

/-- The backend response to the profile request.  `profile` is the parse
result of `response.json()` on the ok branch (`none` means parsing threw). -/
structure ProfileResponse where
  ok : Bool
  profile : Option AuthProfile
  deriving Repr, DecidableEq

/-- Environment of one `fetchUserProfile` execution: the token acquisition
(`none` means `getIdToken` threw) and the fetch outcome (`none` means the
network request itself threw). -/
structure ProfileFetchEnv where
  idToken : Option String
  response : Option ProfileResponse
  deriving Repr, DecidableEq

/-- The `try` block of `fetchUserProfile`: get the token, issue the GET, and
on a non-ok response throw the extracted message (embedded here as its
fallback text, the concrete strings of the error values never being read by
the caller). -/
def fetchUserProfileTry (env : ProfileFetchEnv) : Except String AuthProfile :=
  match env.idToken with
  | none => .error "getIdToken failed"
  | some _ =>
    match env.response with
    | none => .error "Network request failed"
    | some r =>
      if r.ok then
        match r.profile with
        | some p => .ok p
        | none => .error "JSON Parse error"
      else .error "Failed to fetch user profile."

/-- The fallback profile returned by the catch branch of `fetchUserProfile`:
`{ isAdmin: false, tokenBalance: 0 }`. -/
def profileFetchDefault : AuthProfile :=
  { isAdmin := false, tokenBalance := 0, stripeCustomerId := none }

/-- `fetchUserProfile` (`App.tsx` lines 211-240): the try block wrapped in a
catch that logs, raises a modal alert, and returns the fallback profile.  It
is a total function: no error escapes it. -/
def fetchUserProfile (env : ProfileFetchEnv) : AuthProfile :=
  match fetchUserProfileTry env with
  | .ok p => p
  | .error _ => profileFetchDefault

/-! ### onAuthStateChanged (claim C9), App.tsx lines 243-314 -/

/-- The component state touched by `onAuthStateChanged`: the `user` state,
the `initializing` state, and the `isAuthProcessing` ref. -/
structure AppAuthState where
  user : Option User
  initializing : Bool
  isAuthProcessing : Bool
  deriving Repr, DecidableEq

/-- Environment of one `onAuthStateChanged` invocation.  `syncResult` is the
value returned by `syncUserWithBackend` (that helper catches every failure
internally and returns `null`, embedded as `none`; on success it returns the
synced backend user document, embedded as its id).  `fcmToken` is the value
of `requestUserPermissionAndGetToken` (total in the source, it catches every
failure and returns `null`).  `fcmIdTokenOk` is false when the
`getIdToken(true)` call of the FCM step throws, the one statement of step 3
whose failure reaches the outer catch (`sendFcmTokenToBackend` itself
catches everything). -/
structure AuthEnv where
  eventUser : Option FirebaseUser
  liveUser : Option FirebaseUser
  syncResult : Option String
  profileEnv : ProfileFetchEnv
  fcmToken : Option String
  fcmIdTokenOk : Bool
  deriving Repr, DecidableEq

/-- `onAuthStateChanged` (`App.tsx` lines 243-314) as a state transformer.
The guard returns immediately while a previous invocation is processing;
otherwise the try block computes the next `user` value (the pair's flag
records whether the catch branch ran, which sets the user to `null`), and
the finally block clears `initializing` once and resets `isAuthProcessing`.
The source's `if (!profile) throw` check cannot fire because
`fetchUserProfile` always returns an object. -/
def onAuthStateChanged (s : AppAuthState) (env : AuthEnv) : AppAuthState :=
  if s.isAuthProcessing then s
  else
    let tryOutcome : Option User × Bool :=
      match env.eventUser, env.liveUser with
      | some _, some live =>
        match env.syncResult with
        | none => (none, true)
        | some _ =>
          let profile := fetchUserProfile env.profileEnv
          let userToSet : User :=
            { firebaseAuthUser := live
              isAdmin := profile.isAdmin
              tokenBalance := profile.tokenBalance
              stripeCustomerId := profile.stripeCustomerId }
          match env.fcmToken with
          | some _ =>
            if env.fcmIdTokenOk then (some userToSet, false) else (none, true)
          | none => (some userToSet, false)
      | _, _ => (none, false)
    { user := tryOutcome.1
      initializing := if s.initializing then false else s.initializing
      isAuthProcessing := false }

/-- The executions of the `onAuthStateChanged` try block that end in its
catch branch: both users present and either the backend sync returned
`null` or the FCM-step token refresh threw. -/
def authErrorOccurred (env : AuthEnv) : Bool :=
  match env.eventUser, env.liveUser with
  | some _, some _ =>
    env.syncResult.isNone || (env.fcmToken.isSome && !env.fcmIdTokenOk)
  | _, _ => false

/-! ### HTTP requests and sendAuthenticatedRequest (claims C1, C5, C6, C7)

`sendAuthenticatedRequest` appears verbatim in `VenueDetailScreen.tsx`
(lines 302-335), `screens/VenueDetailScreen.tsx` (lines 354-385) and
`screens/PayForTableScreen.tsx` (lines 33-64); it is embedded once. -/

/-- The JSON bodies this client sends, one constructor per call site.
Coordinates typed into the venue form are kept as the raw strings fed to
`parseFloat` / `parseInt`. -/
inductive RequestBody where
  | emptyObject
  | payCost (cost : Int)
  | confirmWin (winnerId : String)
  | removePlayer (playerIdToRemove : String)
  | syncDisplayName (displayName : String)
  | registerVenue (name address latText lonText : String) (numberOfTables : Int)
  deriving Repr, DecidableEq

/-- One HTTP request as built by this client: method, full URL, the
Authorization header value when one is attached, the Content-Type header
when one is set, and the JSON body when one is sent. -/
structure HttpRequest where
  method : String
  url : String
  authHeader : Option String
  contentType : Option String
  body : Option RequestBody
  deriving Repr, DecidableEq

/-- The fields of a parsed JSON response body that these handlers read. -/
structure JsonBody where
  message : Option String
  name : Option String
  deriving Repr, DecidableEq

/-- A backend response as consumed by `sendAuthenticatedRequest`: the ok
flag, the status code, the status text, and the parse result of
`response.json()` (`none` means parsing threw). -/
structure FetchResponse where
  ok : Bool
  status : Nat
  statusText : String
  json : Option JsonBody
  deriving Repr, DecidableEq

/-- Environment of one `sendAuthenticatedRequest` call: the `userAuthUid`
(or `currentUserUid`) state, the token returned by
`auth().currentUser?.getIdToken(true)` (`none` embeds the undefined value
that triggers the explicit throw), and the response to the single request. -/
structure AuthReqEnv where
  userAuthUid : Option String
  idToken : Option String
  response : FetchResponse
  deriving Repr, DecidableEq

/-- The failure-message extraction of `sendAuthenticatedRequest` on a non-ok
response: read `.message` from the parsed JSON body, fall back to
`statusText || 'Unknown error'` when the body does not parse, and fall back
to `HTTP Error: <status>` when the message is falsy. -/
def extractErrorMessage (r : FetchResponse) : String :=
  let errMessage : Option String :=
    match r.json with
    | some b => b.message
    | none => some (jsOr (some r.statusText) "Unknown error")
  jsOr errMessage ("HTTP Error: " ++ toString r.status)

/-- `sendAuthenticatedRequest`: throw before sending when unauthenticated or
when no token is available, otherwise issue exactly one request to
`BACKEND_BASE_URL + '/api' + path` with the Bearer header, and either return
the parsed JSON body or throw the extracted failure message.  The returned
list collects the requests issued. -/
def sendAuthenticatedRequest (env : AuthReqEnv) (path : String) (method : String)
    (body : Option RequestBody) : List HttpRequest × Except String JsonBody :=
  match env.userAuthUid with
  | none => ([], .error "User not authenticated.")
  | some _ =>
    match env.idToken with
    | none => ([], .error "Failed to get authentication token.")
    | some tok =>
      let req : HttpRequest :=
        { method := method
          url := BACKEND_BASE_URL ++ "/api" ++ path
          authHeader := some ("Bearer " ++ tok)
          contentType := some "application/json"
          body := body }
      let r := env.response
      if r.ok then
        match r.json with
        | some b => ([req], .ok b)
        | none => ([req], .error "JSON Parse error")
      else
        ([req], .error (extractErrorMessage r))

/-- What one handler invocation did: the requests it issued, the modal
alerts it raised (title, message) and the console error lines it wrote. -/
structure HandlerResult where
  requests : List HttpRequest
  alerts : List (String × String)
  logs : List String
  deriving Repr, DecidableEq

/-- `handleJoinQueue` (`screens/VenueDetailScreen.tsx` lines 397-405): one
authenticated POST, failures caught, logged and alerted. -/
def handleJoinQueue (env : AuthReqEnv) (table : Table) : HandlerResult :=
  match sendAuthenticatedRequest env ("/tables/" ++ table._id ++ "/join-queue") "POST" none with
  | (reqs, .ok _) => { requests := reqs, alerts := [], logs := [] }
  | (reqs, .error m) =>
    { requests := reqs
      alerts := [("Error", "Failed to join queue: " ++ m)]
      logs := ["Error joining queue:"] }

/-- `handleLeaveQueue` (`screens/VenueDetailScreen.tsx` lines 407-415). -/
def handleLeaveQueue (env : AuthReqEnv) (table : Table) : HandlerResult :=
  match sendAuthenticatedRequest env ("/tables/" ++ table._id ++ "/leave-queue") "POST" none with
  | (reqs, .ok _) => { requests := reqs, alerts := [], logs := [] }
  | (reqs, .error m) =>
    { requests := reqs
      alerts := [("Error", "Failed to leave queue: " ++ m)]
      logs := ["Error leaving queue:"] }

/-- A JavaScript runtime error reachable in the embedded code paths. -/
inductive JsError where
  | typeError
  deriving Repr, DecidableEq

/-- `handleClaimWin` (`screens/VenueDetailScreen.tsx` lines 468-498): return
silently when unauthenticated; dereference `table.currentPlayers` to check
that the current user is one of the two players, alerting and returning when
not; then show the Claim Victory confirmation dialog and, when the user
presses Claim Win (`confirmPressed`), issue the single claim-win POST,
failures caught, logged and alerted. -/
def handleClaimWin (env : AuthReqEnv) (table : Table) (confirmPressed : Bool) :
    Except JsError HandlerResult :=
  match env.userAuthUid with
  | none => .ok { requests := [], alerts := [], logs := [] }
  | some uid =>
    match table.currentPlayers with
    | none => .error .typeError
    | some cp =>
      if cp.player1Id = some uid ∨ cp.player2Id = some uid then
        let dialog : String × String :=
          ("Claim Victory",
           "Are you sure you won the game on Table " ++ table.tableNumber ++
             "? This will notify your opponent for confirmation.")
        if confirmPressed then
          match sendAuthenticatedRequest env ("/tables/" ++ table._id ++ "/claim-win") "POST"
              (some .emptyObject) with
          | (reqs, .ok _) => .ok { requests := reqs, alerts := [dialog], logs := [] }
          | (reqs, .error m) =>
            .ok { requests := reqs
                  alerts := [dialog, ("Error", "Failed to claim win: " ++ m)]
                  logs := ["Error claiming win:"] }
        else .ok { requests := [], alerts := [dialog], logs := [] }
      else
        .ok { requests := []
              alerts := [("Error", "You must be an active player to claim a win.")]
              logs := [] }

/-- The `claimedWinDetails` state consumed by `handleConfirmWin`. -/
structure ClaimedWinDetails where
  tableId : String
  tableNumber : String
  winnerId : String
  winnerDisplayName : String
  message : String
  deriving Repr, DecidableEq

/-- `handleConfirmWin` (`screens/VenueDetailScreen.tsx` lines 500-514):
return silently without the modal details or authentication, otherwise issue
the single confirm-win POST carrying the claimed winner id. -/
def handleConfirmWin (env : AuthReqEnv) (claimedWinDetails : Option ClaimedWinDetails) :
    HandlerResult :=
  match claimedWinDetails, env.userAuthUid with
  | some d, some _ =>
    (match sendAuthenticatedRequest env ("/tables/" ++ d.tableId ++ "/confirm-win") "POST"
        (some (.confirmWin d.winnerId)) with
    | (reqs, .ok _) => { requests := reqs, alerts := [], logs := [] }
    | (reqs, .error m) =>
      { requests := reqs
        alerts := [("Error", "Failed to confirm win: " ++ m)]
        logs := ["Error confirming win:"] })
  | _, _ => { requests := [], alerts := [], logs := [] }

/-- `handlePayWithTokens` (`screens/PayForTableScreen.tsx` lines 66-105):
alert and return when unauthenticated, when the per-game cost is not a
positive number, or when the current token balance does not cover the cost;
otherwise issue the single pay-with-tokens POST carrying the cost, alerting
the response message on success and the extracted failure on error. -/
def handlePayWithTokens (env : AuthReqEnv) (tableId : String)
    (perGameCost : Option Int) (currentUserTokenBalance : Int) : HandlerResult :=
  match env.userAuthUid with
  | none =>
    { requests := []
      alerts := [("Authentication Required", "Please sign in to make a payment.")]
      logs := [] }
  | some _ =>
    match perGameCost with
    | none =>
      { requests := []
        alerts := [("Error", "Invalid table cost. Please try again later.")]
        logs := [] }
    | some cost =>
      if cost ≤ 0 then
        { requests := []
          alerts := [("Error", "Invalid table cost. Please try again later.")]
          logs := [] }
      else if currentUserTokenBalance < cost then
        { requests := []
          alerts := [("Insufficient Tokens",
            "You need " ++ toString cost ++
              " tokens to pay for this table, but you only have " ++
              toString currentUserTokenBalance ++ ". Please purchase more tokens.")]
          logs := [] }
      else
        match sendAuthenticatedRequest env ("/tables/" ++ tableId ++ "/pay-with-tokens") "POST"
            (some (.payCost cost)) with
        | (reqs, .ok b) =>
          { requests := reqs
            alerts := [("Success", jsOr b.message "Tokens deducted successfully!")]
            logs := [] }
        | (reqs, .error m) =>
          { requests := reqs
            alerts := [("Payment Failed", "Could not deduct tokens: " ++ m)]
            logs := ["Error paying with tokens:"] }

/-! ### The text-body fetch helpers (claims C3, C5, C6) -/

/-- A backend response as consumed by the fetchers that read
`response.text()` on failure: the ok flag, status, the raw text body,
`.message` when that text parses as JSON carrying one, and whether
`response.json()` on the ok branch parses. -/
structure TextResponse where
  ok : Bool
  status : Nat
  textBody : String
  jsonErrMessage : Option String
  bodyParses : Bool
  deriving Repr, DecidableEq

/-- The failure-message construction shared by the text-reading fetchers:
start from `HTTP error! status: <status>. Message: <text>` and replace it
with the JSON body's `.message` when the text parses and that field is
truthy. -/
def textErrorMessage (r : TextResponse) : String :=
  jsOr r.jsonErrMessage
    ("HTTP error! status: " ++ toString r.status ++ ". Message: " ++ r.textBody)

/-- Environment of one `syncUserToBackend` execution (`VenueDetailScreen.tsx`
lines 81-111): the `userAuthUid` state, the token (`none` embeds the
undefined value the code logs and returns on), and the fetch outcome
(`none` means the network request threw). -/
structure SyncEnv where
  userAuthUid : Option String
  idToken : Option String
  response : Option TextResponse
  deriving Repr, DecidableEq

/-- `syncUserToBackend` (`VenueDetailScreen.tsx` lines 81-111): return
silently without a uid; log and return without a token; otherwise POST the
display name to `/api/users/sync` and only log the outcome, ok or not — no
failure of this function raises an alert or an exception. -/
def syncUserToBackend (env : SyncEnv) (userAuthDisplayName : String) : HandlerResult :=
  match env.userAuthUid with
  | none => { requests := [], alerts := [], logs := [] }
  | some _ =>
    match env.idToken with
    | none =>
      { requests := [], alerts := [], logs := ["No ID token available for backend sync."] }
    | some tok =>
      let req : HttpRequest :=
        { method := "POST"
          url := BACKEND_BASE_URL ++ "/api/users/sync"
          authHeader := some ("Bearer " ++ tok)
          contentType := some "application/json"
          body := some (.syncDisplayName userAuthDisplayName) }
      match env.response with
      | none =>
        { requests := [req], alerts := [], logs := ["Network error during user sync:"] }
      | some r =>
        if r.ok then
          { requests := [req], alerts := [], logs := ["User synced to backend successfully."] }
        else
          { requests := [req], alerts := [], logs := ["Error syncing user to backend:"] }

/-- A backend response to the table-list request: the text-reading failure
fields plus the parsed table list of the ok branch (`none` means
`response.json()` threw). -/
structure TablesResponse where
  ok : Bool
  status : Nat
  textBody : String
  jsonErrMessage : Option String
  tables : Option (List Table)
  deriving Repr, DecidableEq

/-- The failure message of a non-ok table-list response, the same
construction as `textErrorMessage`. -/
def tablesErrorMessage (r : TablesResponse) : String :=
  jsOr r.jsonErrMessage
    ("HTTP error! status: " ++ toString r.status ++ ". Message: " ++ r.textBody)

/-- What one `fetchTablesForVenue` execution did: its requests, the inline
`errorMsg` state it set, the value it passed to `setTables` (when it did),
its alerts (always none) and its logs. -/
structure FetchTablesOutcome where
  requests : List HttpRequest
  errorMsg : Option String
  tablesSet : Option (List Table)
  alerts : List (String × String)
  logs : List String
  deriving Repr, DecidableEq

/-- The catch branch of `fetchTablesForVenue`: log, set the inline error
message from `error.message || 'Network error'`, and clear the table list —
no alert. -/
def fetchTablesCatch (reqs : List HttpRequest) (m : String) : FetchTablesOutcome :=
  { requests := reqs
    errorMsg := some ("Failed to fetch tables: " ++ jsOr (some m) "Network error" ++ ".")
    tablesSet := some []
    alerts := []
    logs := ["[Fetch Tables Error]"] }

/-- `fetchTablesForVenue` (`VenueDetailScreen.tsx` lines 115-155): throw
into the local catch when unauthenticated or without a token, otherwise
issue the single authenticated GET of the venue's tables, storing the parsed
list on success and routing every failure to the catch branch. -/
def fetchTablesForVenue (venueId : String) (userAuthUid : Option String)
    (idToken : Option String) (resp : Except String TablesResponse) : FetchTablesOutcome :=
  match userAuthUid with
  | none => fetchTablesCatch [] "User not authenticated (userAuthUid is null)."
  | some _ =>
    match idToken with
    | none => fetchTablesCatch [] "Failed to get authentication token for fetching tables."
    | some tok =>
      let req : HttpRequest :=
        { method := "GET"
          url := BACKEND_BASE_URL ++ "/api/venues/" ++ venueId ++ "/tables"
          authHeader := some ("Bearer " ++ tok)
          contentType := none
          body := none }
      match resp with
      | .error m => fetchTablesCatch [req] m
      | .ok r =>
        if r.ok then
          match r.tables with
          | some ts =>
            { requests := [req], errorMsg := none, tablesSet := some ts
              alerts := [], logs := [] }
          | none => fetchTablesCatch [req] "JSON Parse error"
        else fetchTablesCatch [req] (tablesErrorMessage r)

/-! ### The HomeScreen fetchers and venue registration (claims C5, C6) -/

/-- `fetchNearbyVenues` of the second (pre-auth) `App.tsx` revision (lines
862-899): the GET is built from the coordinates only, with no headers at
all — in particular no Authorization header. -/
def fetchNearbyVenuesLegacy (latitude longitude radiusMiles : Int) : HttpRequest :=
  { method := "GET"
    url := BACKEND_BASE_URL ++ "/api/venues/nearby?lat=" ++ toString latitude ++
      "&lon=" ++ toString longitude ++ "&radius=" ++ toString radiusMiles
    authHeader := none
    contentType := none
    body := none }

/-- `fetchAllVenuesForAdmin` (`screens/HomeScreen.tsx` lines 307-352): skip
unless the user is an admin with a uid; `tokenResult` carries the
`user.getIdToken(true)` outcome and `resp` the fetch outcome, a thrown
message in either ending in the catch branch, which logs and alerts. -/
def fetchAllVenuesForAdmin (isAdmin : Bool) (userUid : Option String)
    (tokenResult : Except String String) (resp : Except String TextResponse) : HandlerResult :=
  if !isAdmin || userUid.isNone then
    { requests := [], alerts := [], logs := [] }
  else
    match tokenResult with
    | .error m =>
      { requests := []
        alerts := [("Error", "Failed to load venues for admin: " ++ m)]
        logs := ["[Fetch All Venues Error]"] }
    | .ok tok =>
      let req : HttpRequest :=
        { method := "GET"
          url := BACKEND_BASE_URL ++ "/api/venues"
          authHeader := some ("Bearer " ++ tok)
          contentType := none
          body := none }
      match resp with
      | .error m =>
        { requests := [req]
          alerts := [("Error", "Failed to load venues for admin: " ++ m)]
          logs := ["[Fetch All Venues Error]"] }
      | .ok r =>
        if r.ok then
          if r.bodyParses then { requests := [req], alerts := [], logs := [] }
          else
            { requests := [req]
              alerts := [("Error", "Failed to load venues for admin: JSON Parse error")]
              logs := ["[Fetch All Venues Error]"] }
        else
          { requests := [req]
            alerts := [("Error", "Failed to load venues for admin: " ++ textErrorMessage r)]
            logs := ["[Fetch All Venues Error]"] }

/-- `fetchNearbyVenues` (`screens/HomeScreen.tsx` lines 241-290): skip
without a location or an authenticated user; otherwise issue the single
authenticated GET of the nearby venues, every failure ending in the catch
branch, which logs and alerts. -/
def fetchNearbyVenues (userUid : Option String) (hasLocation : Bool)
    (tokenResult : Except String String) (latitude longitude : Int)
    (resp : Except String TextResponse) : HandlerResult :=
  if userUid.isNone || !hasLocation then
    { requests := [], alerts := [], logs := [] }
  else
    match tokenResult with
    | .error m =>
      { requests := []
        alerts := [("Error", "Failed to fetch nearby pool bars: " ++ jsOr (some m) "Network error" ++
          ". Please ensure your backend is running and accessible.")]
        logs := ["[Fetch Venues Error]"] }
    | .ok tok =>
      let req : HttpRequest :=
        { method := "GET"
          url := BACKEND_BASE_URL ++ "/api/venues/nearby?lat=" ++ toString latitude ++
            "&lon=" ++ toString longitude ++ "&radiusMiles=5"
          authHeader := some ("Bearer " ++ tok)
          contentType := none
          body := none }
      match resp with
      | .error m =>
        { requests := [req]
          alerts := [("Error", "Failed to fetch nearby pool bars: " ++ jsOr (some m) "Network error" ++
            ". Please ensure your backend is running and accessible.")]
          logs := ["[Fetch Venues Error]"] }
      | .ok r =>
        if r.ok then
          if r.bodyParses then { requests := [req], alerts := [], logs := [] }
          else
            { requests := [req]
              alerts := [("Error", "Failed to fetch nearby pool bars: JSON Parse error" ++
                ". Please ensure your backend is running and accessible.")]
              logs := ["[Fetch Venues Error]"] }
        else
          { requests := [req]
            alerts := [("Error", "Failed to fetch nearby pool bars: " ++ textErrorMessage r ++
              ". Please ensure your backend is running and accessible.")]
            logs := ["[Fetch Venues Error]"] }

/-- The venue registration form state of `screens/HomeScreen.tsx`. -/
structure RegisterVenueForm where
  name : String
  address : String
  latText : String
  lonText : String
  tablesCountText : String
  deriving Repr, DecidableEq

/-- Decimal digits of a character list, `none` when empty or non-numeric. -/
def parseDigits (cs : List Char) : Option Nat :=
  match cs with
  | [] => none
  | _ =>
    cs.foldl
      (fun acc c =>
        match acc with
        | some n => if c.isDigit then some (n * 10 + (c.toNat - 48)) else none
        | none => none)
      (some 0)

/-- `parseInt(s, 10)` as used by the registration guard, embedded as a
full-string integer parse (the guard only asks whether the result is NaN). -/
def jsParseInt (s : String) : Option Int :=
  match s.toList with
  | '-' :: rest => (parseDigits rest).map fun n => -(n : Int)
  | cs => (parseDigits cs).map fun n => (n : Int)

/-- The registration POST built by `handleRegisterVenue` from the form
fields and the token. -/
def registerVenueRequest (tok : String) (form : RegisterVenueForm) : HttpRequest :=
  { method := "POST"
    url := BACKEND_BASE_URL ++ "/api/venues"
    authHeader := some ("Bearer " ++ tok)
    contentType := some "application/json"
    body := some (.registerVenue form.name form.address form.latText form.lonText
      ((jsParseInt form.tablesCountText).getD 0)) }

/-- `handleRegisterVenue` (`screens/HomeScreen.tsx` lines 440-491): alert
and return when unauthenticated or when the form guard fails; otherwise
issue the registration POST, and on success raise the Success alert and call
`fetchAllVenuesForAdmin()` and `fetchNearbyVenues()`, whose requests and
alerts are appended; failures end in the catch branch, which logs and
alerts. -/
def handleRegisterVenue (userUid : Option String) (form : RegisterVenueForm)
    (tokenResult : Except String String) (registerResp : Except String FetchResponse)
    (isAdmin : Bool) (hasLocation : Bool)
    (adminTokenResult nearbyTokenResult : Except String String)
    (adminResp nearbyResp : Except String TextResponse)
    (latitude longitude : Int) : HandlerResult :=
  match userUid with
  | none =>
    { requests := [], alerts := [("Authentication Error", "User not authenticated.")], logs := [] }
  | some uid =>
    if form.name = "" ∨ form.address = "" ∨ form.latText = "" ∨ form.lonText = "" ∨
        form.tablesCountText = "" ∨ (jsParseInt form.tablesCountText).isNone then
      { requests := []
        alerts := [("Missing Information",
          "Please fill in all venue details and a valid number of tables.")]
        logs := [] }
    else
      match tokenResult with
      | .error m =>
        { requests := []
          alerts := [("Registration Failed", "Error: " ++ m)]
          logs := ["Venue registration error:"] }
      | .ok tok =>
        let req := registerVenueRequest tok form
        match registerResp with
        | .error m =>
          { requests := [req]
            alerts := [("Registration Failed", "Error: " ++ m)]
            logs := ["Venue registration error:"] }
        | .ok r =>
          if r.ok then
            match r.json with
            | none =>
              { requests := [req]
                alerts := [("Registration Failed", "Error: JSON Parse error")]
                logs := ["Venue registration error:"] }
            | some b =>
              let adminRes := fetchAllVenuesForAdmin isAdmin (some uid) adminTokenResult adminResp
              let nearbyRes :=
                fetchNearbyVenues (some uid) hasLocation nearbyTokenResult latitude longitude nearbyResp
              { requests := req :: (adminRes.requests ++ nearbyRes.requests)
                alerts :=
                  ("Success", "Venue \"" ++ (b.name.getD "undefined") ++ "\" registered successfully!") ::
                    (adminRes.alerts ++ nearbyRes.alerts)
                logs := adminRes.logs ++ nearbyRes.logs }
          else
            match r.json with
            | none =>
              { requests := [req]
                alerts := [("Registration Failed", "Error: JSON Parse error")]
                logs := ["Venue registration error:"] }
            | some b =>
              { requests := [req]
                alerts := [("Registration Failed",
                  "Error: " ++ jsOr b.message "Failed to register venue.")]
                logs := ["Venue registration error:"] }

/-! ### renderTableItem (claim C4), screens/VenueDetailScreen.tsx lines 549-676 -/

/-- The data a rendered table card displays. -/
structure RenderedTable where
  statusText : String
  showDeviceId : Bool
  costText : String
  player1Label : String
  player2Label : String
  showRemove1 : Bool
  showRemove2 : Bool
  primaryButtonText : String
  queueCount : Nat
  queuePosition : Option Nat
  queueLabels : List String
  deriving Repr, DecidableEq

/-- `renderTableItem` of `screens/VenueDetailScreen.tsx`.  The body first
computes `currentPlayersSafe = item.currentPlayers || { player1Id: null,
player2Id: null }` and derives every display value from it, but the two
admin remove-player gates read `item.currentPlayers.player1Id` and
`item.currentPlayers.player2Id` on the raw field, which throws a TypeError
when `currentPlayers` is missing; the strict equalities against
`userAuthUid` (a `string | null`) are embedded as `Option String` equality,
and `String(userAuthUid)` in the queue comparisons turns a null uid into the
text `null`. -/
def renderTableItem (isAdmin : Bool) (userAuthUid : Option String)
    (userAuthDisplayName : String) (item : Table) : Except JsError RenderedTable :=
  let currentPlayersSafe : CurrentPlayers :=
    item.currentPlayers.getD { player1Id := none, player2Id := none }
  let numPlayers : Nat :=
    (if jsTruthyStr currentPlayersSafe.player1Id then 1 else 0) +
      (if jsTruthyStr currentPlayersSafe.player2Id then 1 else 0)
  let isCurrentUserPlaying : Prop :=
    currentPlayersSafe.player1Id = userAuthUid ∨ currentPlayersSafe.player2Id = userAuthUid
  let uidStr : String := match userAuthUid with | some s => s | none => "null"
  let isCurrentUserInQueue : Bool := item.queue.any fun u => u._id == uidStr
  let primaryButtonText : String :=
    if isCurrentUserPlaying then "I WON"
    else if item.queue.length = 0 then
      if (numPlayers = 0 ∧ item.status = .available) ∨
          (numPlayers = 1 ∧ (item.status = .available ∨ item.status = .in_play)) then
        "Join Table"
      else "N/A"
    else if isCurrentUserInQueue then "Leave Queue"
    else "Join Queue"
  let queuePosition : Option Nat :=
    if isCurrentUserInQueue then some ((item.queue.findIdx fun u => u._id == uidStr) + 1)
    else none
  let player1Label : String :=
    match item.player1Details with
    | some d =>
      if d.displayName = "" then "Empty"
      else if userAuthUid = some d._id then userAuthDisplayName ++ " (You)"
      else d.displayName
    | none => "Empty"
  let player2Label : String :=
    match item.player2Details with
    | some d =>
      if d.displayName = "" then "Empty"
      else if userAuthUid = some d._id then userAuthDisplayName ++ " (You)"
      else d.displayName
    | none => "Empty"
  let queueLabels : List String :=
    item.queue.enum.map fun p =>
      toString (p.1 + 1) ++ ". " ++ jsOr p.2.displayName "Unnamed User" ++
        (if p.2._id == uidStr then " (You)" else "")
  let base : RenderedTable :=
    { statusText := (statusString item.status).toUpper
      showDeviceId := jsTruthyStr item.esp32DeviceId
      costText :=
        match item.perGameCost with
        | some c => toString c ++ " tokens"
        | none => "N/A tokens"
      player1Label := player1Label
      player2Label := player2Label
      showRemove1 := false
      showRemove2 := false
      primaryButtonText := primaryButtonText
      queueCount := item.queue.length
      queuePosition := queuePosition
      queueLabels := queueLabels }
  if isAdmin then
    match item.currentPlayers with
    | none => .error .typeError
    | some cp =>
      .ok { base with
        showRemove1 := jsTruthyStr cp.player1Id
        showRemove2 := jsTruthyStr cp.player2Id }
  else .ok base

/-! ## Sample data used by witnesses and counterexamples -/

/-- A concrete table used by witnesses. -/
def sampleTableA : Table :=
  { _id := "table-a", venueId := "v1", tableNumber := "1", esp32DeviceId := none
    status := .available
    currentPlayers := some { player1Id := none, player2Id := none }
    currentSessionId := none, queue := [], perGameCost := some 5
    player1Details := none, player2Details := none }

/-- A second concrete table with a different id. -/
def sampleTableB : Table :=
  { sampleTableA with _id := "table-b", tableNumber := "2" }

/-- A concrete Firebase user used by witnesses. -/
def sampleFirebaseUser : FirebaseUser :=
  { uid := "uid-1", displayName := some "Sample", email := none }

/-! ## Theorems -/

/-- Helper for C2: the replacing map is the identity when no list element
carries the payload id. -/
theorem map_replace_no_match (l : List Table) (upd : Table)
    (h : ∀ t ∈ l, t._id ≠ upd._id) :
    (l.map fun t => if t._id = upd._id then upd else t) = l := by
  induction l with
  | nil => rfl
  | cons a tl ih =>
    simp only [List.map_cons]
    rw [if_neg (h a (List.mem_cons_self a tl))]
    rw [ih fun t ht => h t (List.mem_cons_of_mem a ht)]

/-- C2: each `queueUpdate` / `tableStatusUpdate` handler maps the previous
list pointwise, substituting the payload verbatim exactly at the positions
whose `_id` equals the payload id and keeping every other element in place,
and the list is unchanged whenever no element matches. -/
theorem socket_update_replaces_verbatim :
    ∀ (prev : List Table) (upd : Table) (i : Nat),
      (handleQueueUpdate prev upd)[i]?
          = (prev[i]?).map (fun t => if t._id = upd._id then upd else t)
      ∧ (handleTableStatusUpdate prev upd)[i]?
          = (prev[i]?).map (fun t => if t._id = upd._id then upd else t)
      ∧ ((∀ t ∈ prev, t._id ≠ upd._id) → handleQueueUpdate prev upd = prev)
      ∧ ((∀ t ∈ prev, t._id ≠ upd._id) → handleTableStatusUpdate prev upd = prev) := by
  intro prev upd i
  refine ⟨?_, ?_, ?_, ?_⟩
  · simp [handleQueueUpdate, List.getElem?_map]
  · simp [handleTableStatusUpdate, List.getElem?_map]
  · intro h
    exact map_replace_no_match prev upd h
  · intro h
    exact map_replace_no_match prev upd h

/-- C2 witness: with a non-matching payload the handler leaves a concrete
list unchanged, and the pointwise description evaluates at index 0. -/
theorem socket_update_replaces_verbatim_witness :
    handleQueueUpdate [sampleTableA] sampleTableB = [sampleTableA] :=
  (socket_update_replaces_verbatim [sampleTableA] sampleTableB 0).2.2.1
    (by decide)

/-- C8: the `tokenBalanceUpdate` listener only rewrites `tokenBalance`,
keeping `firebaseAuthUser`, `isAdmin` and `stripeCustomerId`, and keeps a
null user state null. -/
theorem tokenBalanceUpdate_frame :
    ∀ (u : User) (newBalance : Int),
      handleTokenBalanceUpdate (some u) newBalance =
        some { firebaseAuthUser := u.firebaseAuthUser, isAdmin := u.isAdmin
               tokenBalance := newBalance, stripeCustomerId := u.stripeCustomerId }
      ∧ handleTokenBalanceUpdate none newBalance = none := by
  intro u newBalance
  exact ⟨rfl, rfl⟩

/-- C10: `fetchUserProfile` is total, and every execution in which the token
acquisition fails, the request errors, the response is non-ok, or the try
block throws for any reason returns exactly the fallback profile
`{ isAdmin := false, tokenBalance := 0 }`. -/
theorem fetchUserProfile_fail_closed :
    ∀ env : ProfileFetchEnv,
      (env.idToken = none → fetchUserProfile env = profileFetchDefault)
      ∧ (env.response = none → fetchUserProfile env = profileFetchDefault)
      ∧ (∀ r, env.response = some r → r.ok = false →
          fetchUserProfile env = profileFetchDefault)
      ∧ (∀ e, fetchUserProfileTry env = .error e →
          fetchUserProfile env = profileFetchDefault) := by
  intro env
  refine ⟨?_, ?_, ?_, ?_⟩
  · intro h
    simp [fetchUserProfile, fetchUserProfileTry, h]
  · intro h
    cases hi : env.idToken <;>
      simp [fetchUserProfile, fetchUserProfileTry, h, hi]
  · intro r hr hok
    cases hi : env.idToken <;>
      simp [fetchUserProfile, fetchUserProfileTry, hr, hi, hok]
  · intro e he
    simp [fetchUserProfile, he]

/-- C10 witness: a non-ok profile response yields the fallback profile. -/
theorem fetchUserProfile_fail_closed_witness :
    fetchUserProfile { idToken := some "tok-1", response := some { ok := false, profile := none } }
      = profileFetchDefault :=
  (fetchUserProfile_fail_closed
      { idToken := some "tok-1", response := some { ok := false, profile := none } }).2.2.1
    { ok := false, profile := none } rfl rfl

/-- C9: a re-entrant `onAuthStateChanged` invocation returns with the state
untouched; every invocation that passes the guard ends with
`isAuthProcessing` reset to false; and whenever the try block ends in the
catch branch the user state is null. -/
theorem onAuthStateChanged_guarded_fail_safe :
    ∀ (s : AppAuthState) (env : AuthEnv),
      (s.isAuthProcessing = true → onAuthStateChanged s env = s)
      ∧ (s.isAuthProcessing = false →
          (onAuthStateChanged s env).isAuthProcessing = false)
      ∧ (s.isAuthProcessing = false → authErrorOccurred env = true →
          (onAuthStateChanged s env).user = none) := by
  intro s env
  refine ⟨?_, ?_, ?_⟩
  · intro h
    simp [onAuthStateChanged, h]
  · intro h
    simp [onAuthStateChanged, h]
  · intro h herr
    cases heu : env.eventUser with
    | none => simp [authErrorOccurred, heu] at herr
    | some fu =>
      cases hlu : env.liveUser with
      | none => simp [authErrorOccurred, heu, hlu] at herr
      | some lu =>
        cases hs : env.syncResult with
        | none => simp [onAuthStateChanged, h, heu, hlu, hs]
        | some sr =>
          cases hf : env.fcmToken with
          | none => simp [authErrorOccurred, heu, hlu, hs, hf] at herr
          | some ft =>
            cases hok : env.fcmIdTokenOk
            · simp [onAuthStateChanged, h, heu, hlu, hs, hf, hok]
            · simp [authErrorOccurred, heu, hlu, hs, hf, hok] at herr

/-- C9 witness: on a concrete failed-sync execution the completed invocation
clears the user state. -/
theorem onAuthStateChanged_guarded_fail_safe_witness :
    (onAuthStateChanged
        { user := none, initializing := true, isAuthProcessing := false }
        { eventUser := some sampleFirebaseUser, liveUser := some sampleFirebaseUser
          syncResult := none
          profileEnv := { idToken := none, response := none }
          fcmToken := none, fcmIdTokenOk := true }).user = none :=
  (onAuthStateChanged_guarded_fail_safe
      { user := none, initializing := true, isAuthProcessing := false }
      { eventUser := some sampleFirebaseUser, liveUser := some sampleFirebaseUser
        syncResult := none
        profileEnv := { idToken := none, response := none }
        fcmToken := none, fcmIdTokenOk := true }).2.2 rfl (by decide)

/-- C7: `sendAuthenticatedRequest` never issues more than one request; on a
non-ok response the single request is not re-issued and the raised error is
exactly the message extracted from the response body with the
statusText / HTTP-status fallbacks; and the `handleJoinQueue` operation
wrapper likewise never issues more than one request. -/
theorem sendAuthenticatedRequest_no_retry :
    ∀ (env : AuthReqEnv) (path method : String) (body : Option RequestBody),
      (sendAuthenticatedRequest env path method body).1.length ≤ 1
      ∧ (env.userAuthUid.isSome → env.idToken.isSome → env.response.ok = false →
          (sendAuthenticatedRequest env path method body).1.length = 1
          ∧ (sendAuthenticatedRequest env path method body).2 =
              .error (extractErrorMessage env.response))
      ∧ (∀ t : Table, (handleJoinQueue env t).requests.length ≤ 1) := by
  have hlen : ∀ (env : AuthReqEnv) (path method : String) (body : Option RequestBody),
      (sendAuthenticatedRequest env path method body).1.length ≤ 1 := by
    intro env path method body
    rcases env with ⟨uid, tok, resp⟩
    cases uid <;> cases tok <;> simp [sendAuthenticatedRequest]
    cases hok : resp.ok <;> cases hj : resp.json <;> simp [hok, hj]
  intro env path method body
  refine ⟨hlen env path method body, ?_, ?_⟩
  · intro hu ht hok
    rcases Option.isSome_iff_exists.mp hu with ⟨u, hu'⟩
    rcases Option.isSome_iff_exists.mp ht with ⟨t, ht'⟩
    constructor <;> simp [sendAuthenticatedRequest, hu', ht', hok]
  · intro t
    have h := hlen env ("/tables/" ++ t._id ++ "/join-queue") "POST" none
    rcases hsr : sendAuthenticatedRequest env ("/tables/" ++ t._id ++ "/join-queue") "POST" none
      with ⟨reqs, res⟩
    rw [hsr] at h
    cases res <;> simpa [handleJoinQueue, hsr] using h

/-- C7 witness: on a concrete 404 with a non-JSON body the one request is
issued once and the raised message is the statusText fallback. -/
theorem sendAuthenticatedRequest_no_retry_witness :
    (sendAuthenticatedRequest
        { userAuthUid := some "user-1", idToken := some "tok-1"
          response := { ok := false, status := 404, statusText := "Not Found", json := none } }
        "/tables/t1/join-queue" "POST" none).1.length = 1
    ∧ (sendAuthenticatedRequest
        { userAuthUid := some "user-1", idToken := some "tok-1"
          response := { ok := false, status := 404, statusText := "Not Found", json := none } }
        "/tables/t1/join-queue" "POST" none).2 =
        .error (extractErrorMessage
          { ok := false, status := 404, statusText := "Not Found", json := none }) :=
  (sendAuthenticatedRequest_no_retry
      { userAuthUid := some "user-1", idToken := some "tok-1"
        response := { ok := false, status := 404, statusText := "Not Found", json := none } }
      "/tables/t1/join-queue" "POST" none).2.1 rfl rfl rfl

/-- A concrete successful backend response used by concrete executions. -/
def payOkResponse : FetchResponse :=
  { ok := true, status := 200, statusText := "OK"
    json := some { message := none, name := none } }

/-- C1 counterexample: with a signed-in user, a valid cost of 5 and a local
balance of 0, `handlePayWithTokens` issues no HTTP request at all and
instead raises the Insufficient Tokens alert — the client enforces the
token-balance sufficiency rule itself before calling the server, refuting
the claim that the handlers perform no client-side rule check. -/
theorem payWithTokens_client_side_balance_check :
    (handlePayWithTokens
        { userAuthUid := some "user-1", idToken := some "tok-1", response := payOkResponse }
        "table-1" (some 5) 0).requests = []
    ∧ (handlePayWithTokens
        { userAuthUid := some "user-1", idToken := some "tok-1", response := payOkResponse }
        "table-1" (some 5) 0).alerts =
        [("Insufficient Tokens",
          "You need 5 tokens to pay for this table, but you only have 0. Please purchase more tokens.")] := by
  constructor <;> decide

/-- C1 amended: the handlers delegate every business outcome to a single
server call, but they do perform client-side precondition guards:
`handlePayWithTokens` only issues its request when the user is signed in,
the per-game cost is positive and the local balance covers it (raising the
Insufficient Tokens alert and sending nothing otherwise), and
`handleClaimWin` only issues its request when the current user is one of the
table's current players (alerting and sending nothing otherwise); when the
guards pass, the issued request is exactly the one built by
`sendAuthenticatedRequest` from the raw parameters. -/
theorem operation_handlers_guards :
    ∀ (env : AuthReqEnv) (tableId : String) (cost bal : Int),
      (env.userAuthUid.isSome → 0 < cost → cost ≤ bal →
        (handlePayWithTokens env tableId (some cost) bal).requests =
          (sendAuthenticatedRequest env ("/tables/" ++ tableId ++ "/pay-with-tokens") "POST"
            (some (.payCost cost))).1)
      ∧ (env.userAuthUid.isSome → 0 < cost → bal < cost →
          (handlePayWithTokens env tableId (some cost) bal).requests = []
          ∧ (handlePayWithTokens env tableId (some cost) bal).alerts =
              [("Insufficient Tokens",
                "You need " ++ toString cost ++
                  " tokens to pay for this table, but you only have " ++
                  toString bal ++ ". Please purchase more tokens.")])
      ∧ (∀ (t : Table) (cp : CurrentPlayers) (uid : String) (cf : Bool),
          env.userAuthUid = some uid → t.currentPlayers = some cp →
          ¬(cp.player1Id = some uid ∨ cp.player2Id = some uid) →
          handleClaimWin env t cf =
            .ok { requests := []
                  alerts := [("Error", "You must be an active player to claim a win.")]
                  logs := [] })
      ∧ (∀ (t : Table) (cp : CurrentPlayers) (uid : String),
          env.userAuthUid = some uid → t.currentPlayers = some cp →
          (cp.player1Id = some uid ∨ cp.player2Id = some uid) →
          ∃ r, handleClaimWin env t true = .ok r
            ∧ r.requests =
                (sendAuthenticatedRequest env ("/tables/" ++ t._id ++ "/claim-win") "POST"
                  (some .emptyObject)).1) := by
  intro env tableId cost bal
  refine ⟨?_, ?_, ?_, ?_⟩
  · intro hu hpos hle
    rcases Option.isSome_iff_exists.mp hu with ⟨u, hu'⟩
    have h1 : ¬ cost ≤ 0 := by omega
    have h2 : ¬ bal < cost := by omega
    rcases hsr : sendAuthenticatedRequest env ("/tables/" ++ tableId ++ "/pay-with-tokens") "POST"
        (some (.payCost cost)) with ⟨reqs, res⟩
    cases res <;> simp [handlePayWithTokens, hu', h1, h2, hsr]
  · intro hu hpos hlt
    rcases Option.isSome_iff_exists.mp hu with ⟨u, hu'⟩
    have h1 : ¬ cost ≤ 0 := by omega
    constructor <;> simp [handlePayWithTokens, hu', h1, hlt]
  · intro t cp uid cf hu' hcp hnp
    simp [handleClaimWin, hu', hcp, hnp]
  · intro t cp uid hu' hcp hp
    rcases hsr : sendAuthenticatedRequest env ("/tables/" ++ t._id ++ "/claim-win") "POST"
        (some .emptyObject) with ⟨reqs, res⟩
    cases res with
    | ok b =>
      refine ⟨{ requests := reqs
                alerts := [("Claim Victory",
                  "Are you sure you won the game on Table " ++ t.tableNumber ++
                    "? This will notify your opponent for confirmation.")]
                logs := [] }, ?_, rfl⟩
      simp [handleClaimWin, hu', hcp, hp, hsr]
    | error m =>
      refine ⟨{ requests := reqs
                alerts := [("Claim Victory",
                  "Are you sure you won the game on Table " ++ t.tableNumber ++
                    "? This will notify your opponent for confirmation."),
                  ("Error", "Failed to claim win: " ++ m)]
                logs := ["Error claiming win:"] }, ?_, rfl⟩
      simp [handleClaimWin, hu', hcp, hp, hsr]

/-- C1 amended witness: with a covering balance the pay handler issues
exactly the single request the helper builds. -/
theorem operation_handlers_guards_witness :
    (handlePayWithTokens
        { userAuthUid := some "user-1", idToken := some "tok-1", response := payOkResponse }
        "table-1" (some 5) 9).requests =
      (sendAuthenticatedRequest
          { userAuthUid := some "user-1", idToken := some "tok-1", response := payOkResponse }
          "/tables/table-1/pay-with-tokens" "POST" (some (.payCost 5))).1 :=
  (operation_handlers_guards
      { userAuthUid := some "user-1", idToken := some "tok-1", response := payOkResponse }
      "table-1" 5 9).1 rfl (by decide) (by decide)

/-- A concrete failed sync environment: authenticated, token available, the
POST answered with a 500. -/
def syncFailEnv : SyncEnv :=
  { userAuthUid := some "user-1", idToken := some "tok-1"
    response := some { ok := false, status := 500, textBody := "boom"
                       jsonErrMessage := none, bodyParses := true } }

/-- C3 counterexample: the user-sync POST fails with a 500, the failure is
caught and logged, yet no modal alert is raised — refuting the claim that
every failed network call is surfaced to the user via a modal alert. -/
theorem syncFailure_not_alerted :
    (syncUserToBackend syncFailEnv "You").requests ≠ []
    ∧ (syncUserToBackend syncFailEnv "You").alerts = []
    ∧ (syncUserToBackend syncFailEnv "You").logs = ["Error syncing user to backend:"] := by
  refine ⟨?_, ?_, ?_⟩ <;> decide

/-- C3 amended: every failed call is caught and logged, but only the
interactive operation handlers surface the failure via a modal alert: the
background user-sync POST logs its failures without alerting, and the
table-list fetcher reports its failures through the inline `errorMsg` state
instead of an alert. -/
theorem failures_logged_alerts_per_channel :
    (∀ (senv : SyncEnv) (d : String) (r : TextResponse),
        senv.userAuthUid.isSome → senv.idToken.isSome →
        senv.response = some r → r.ok = false →
        (syncUserToBackend senv d).alerts = [] ∧ (syncUserToBackend senv d).logs ≠ [])
    ∧ (∀ (env : AuthReqEnv) (t : Table),
        env.userAuthUid.isSome → env.idToken.isSome → env.response.ok = false →
        (handleJoinQueue env t).alerts =
          [("Error", "Failed to join queue: " ++ extractErrorMessage env.response)]
        ∧ (handleJoinQueue env t).logs ≠ [])
    ∧ (∀ (venueId uid tok : String) (r : TablesResponse),
        r.ok = false →
        (fetchTablesForVenue venueId (some uid) (some tok) (.ok r)).alerts = []
        ∧ (fetchTablesForVenue venueId (some uid) (some tok) (.ok r)).errorMsg ≠ none) := by
  refine ⟨?_, ?_, ?_⟩
  · intro senv d r hu ht hr hok
    rcases Option.isSome_iff_exists.mp hu with ⟨u, hu'⟩
    rcases Option.isSome_iff_exists.mp ht with ⟨t, ht'⟩
    constructor <;> simp [syncUserToBackend, hu', ht', hr, hok]
  · intro env t hu ht hok
    rcases Option.isSome_iff_exists.mp hu with ⟨u, hu'⟩
    rcases Option.isSome_iff_exists.mp ht with ⟨tk, ht'⟩
    constructor <;> simp [handleJoinQueue, sendAuthenticatedRequest, hu', ht', hok]
  · intro venueId uid tok r hok
    constructor <;> simp [fetchTablesForVenue, fetchTablesCatch, hok, jsOr]

/-- C3 amended witness: on a concrete 500 the sync failure is logged without
an alert. -/
theorem failures_logged_alerts_per_channel_witness :
    (syncUserToBackend syncFailEnv "Sample").alerts = []
    ∧ (syncUserToBackend syncFailEnv "Sample").logs ≠ [] :=
  failures_logged_alerts_per_channel.1 syncFailEnv "Sample"
    { ok := false, status := 500, textBody := "boom", jsonErrMessage := none, bodyParses := true }
    rfl rfl rfl rfl

/-- A concrete table whose optional `currentPlayers` field is missing, the
very shape the `|| { player1Id: null, player2Id: null }` default guards. -/
def sampleTableNoPlayers : Table :=
  { _id := "t-np", venueId := "v1", tableNumber := "3", esp32DeviceId := none
    status := .available, currentPlayers := none, currentSessionId := none
    queue := [], perGameCost := some 10
    player1Details := none, player2Details := none }

/-- C4: rendering a table with a missing `currentPlayers` field crashes with
a TypeError when `isAdmin` is true — the admin remove-player gates
dereference `item.currentPlayers.player1Id` on the raw field, bypassing the
`currentPlayersSafe` default computed just above them — while the same table
renders for a non-admin viewer. -/
theorem renderTableItem_admin_missing_players_crash :
    renderTableItem true (some "admin-1") "Admin" sampleTableNoPlayers = .error .typeError
    ∧ ∃ r, renderTableItem false (some "admin-1") "Admin" sampleTableNoPlayers = .ok r := by
  exact ⟨rfl, ⟨_, rfl⟩⟩

/-- C5 counterexample: the nearby-venues GET built by the second `App.tsx`
revision carries no Authorization header at all, refuting the claim that
every request to the backend JSON API carries a Bearer token. -/
theorem legacy_nearby_request_unauthenticated :
    (fetchNearbyVenuesLegacy 41 (-72) 5).authHeader = none
    ∧ (fetchNearbyVenuesLegacy 41 (-72) 5).method = "GET" := by
  exact ⟨rfl, rfl⟩

/-- C5 amended: every request built by `sendAuthenticatedRequest` carries
`Authorization: Bearer <idToken>` and the helper throws without sending when
the user or the token is missing; but the legacy App revision's nearby-venue
GET carries no Authorization header, and the background sync helper returns
silently — sending nothing but also throwing nothing — when no token is
available. -/
theorem bearer_header_coverage :
    (∀ (env : AuthReqEnv) (path method : String) (body : Option RequestBody) (tok : String),
        env.idToken = some tok →
        ∀ req ∈ (sendAuthenticatedRequest env path method body).1,
          req.authHeader = some ("Bearer " ++ tok))
    ∧ (∀ (env : AuthReqEnv) (path method : String) (body : Option RequestBody),
        env.userAuthUid = none ∨ env.idToken = none →
        (sendAuthenticatedRequest env path method body).1 = []
        ∧ ∃ m, (sendAuthenticatedRequest env path method body).2 = .error m)
    ∧ (∀ la lo r : Int, (fetchNearbyVenuesLegacy la lo r).authHeader = none)
    ∧ (∀ (senv : SyncEnv) (d : String), senv.idToken = none →
        (syncUserToBackend senv d).requests = [] ∧ (syncUserToBackend senv d).alerts = []) := by
  refine ⟨?_, ?_, ?_, ?_⟩
  · intro env path method body tok htok req hreq
    rcases env with ⟨uid, tk, resp⟩
    cases uid with
    | none => simp [sendAuthenticatedRequest] at hreq
    | some u =>
      simp only at htok
      subst htok
      cases hok : resp.ok <;> cases hj : resp.json <;>
        simp [sendAuthenticatedRequest, hok, hj] at hreq <;>
        simp [hreq]
  · intro env path method body h
    rcases env with ⟨uid, tk, resp⟩
    rcases h with h | h <;> simp only at h <;> subst h
    · exact ⟨rfl, ⟨"User not authenticated.", rfl⟩⟩
    · cases uid with
      | none => exact ⟨rfl, ⟨"User not authenticated.", rfl⟩⟩
      | some u => exact ⟨rfl, ⟨"Failed to get authentication token.", rfl⟩⟩
  · intro la lo r
    rfl
  · intro senv d h
    rcases senv with ⟨uid, tk, resp⟩
    simp only at h
    subst h
    cases uid <;> simp [syncUserToBackend]

/-- The one request a concrete authenticated GET builds. -/
def sampleAuthedRequest : HttpRequest :=
  { method := "GET", url := BACKEND_BASE_URL ++ "/api/venues"
    authHeader := some ("Bearer " ++ "tok-1")
    contentType := some "application/json", body := none }

/-- C5 amended witness: the concrete authenticated request carries the
Bearer header of its token. -/
theorem bearer_header_coverage_witness :
    sampleAuthedRequest.authHeader = some ("Bearer " ++ "tok-1") :=
  bearer_header_coverage.1
    { userAuthUid := some "user-1", idToken := some "tok-1", response := payOkResponse }
    "/venues" "GET" none "tok-1" rfl sampleAuthedRequest (by decide)

/-- A concrete, fully filled venue registration form. -/
def regForm : RegisterVenueForm :=
  { name := "The Spot", address := "1 Main St", latText := "41.0"
    lonText := "-72.0", tablesCountText := "5" }

/-- A concrete successful registration response. -/
def regOkResponse : FetchResponse :=
  { ok := true, status := 201, statusText := "Created"
    json := some { message := none, name := some "The Spot" } }

/-- A concrete successful list-refresh response. -/
def refreshOkResponse : TextResponse :=
  { ok := true, status := 200, textBody := "", jsonErrMessage := none, bodyParses := true }

/-- C6 counterexample: one successful invocation of `handleRegisterVenue`
issues three HTTP requests — the registration POST plus the two refresh GETs
of `fetchAllVenuesForAdmin()` and `fetchNearbyVenues()` that its success
path triggers — refuting the claim that each operation handler issues
exactly one request with no additional requests on success. -/
theorem registerVenue_issues_refresh_requests :
    (handleRegisterVenue (some "admin-1") regForm (.ok "tok-1") (.ok regOkResponse)
        true true (.ok "tok-1") (.ok "tok-1") (.ok refreshOkResponse) (.ok refreshOkResponse)
        41 (-72)).requests.length = 3 := by
  decide

/-- C6 amended: the queue, win and payment handlers issue at most one HTTP
request per invocation (exactly one for the queue operations once
authenticated with a token), with no additional request on success or
failure; `handleRegisterVenue` issues its single registration POST but on
success additionally triggers the requests of the two list-refresh
fetchers. -/
theorem single_request_per_operation :
    (∀ (env : AuthReqEnv) (t : Table), (handleJoinQueue env t).requests.length ≤ 1)
    ∧ (∀ (env : AuthReqEnv) (t : Table), (handleLeaveQueue env t).requests.length ≤ 1)
    ∧ (∀ (env : AuthReqEnv) (d : Option ClaimedWinDetails),
        (handleConfirmWin env d).requests.length ≤ 1)
    ∧ (∀ (env : AuthReqEnv) (tid : String) (c : Option Int) (b : Int),
        (handlePayWithTokens env tid c b).requests.length ≤ 1)
    ∧ (∀ (env : AuthReqEnv) (t : Table) (cf : Bool) (r : HandlerResult),
        handleClaimWin env t cf = .ok r → r.requests.length ≤ 1)
    ∧ (∀ (env : AuthReqEnv) (t : Table),
        env.userAuthUid.isSome → env.idToken.isSome →
        (handleJoinQueue env t).requests.length = 1
        ∧ (handleLeaveQueue env t).requests.length = 1)
    ∧ (∀ (uid : String) (form : RegisterVenueForm) (tok : String) (r : FetchResponse)
        (b : JsonBody) (isAdmin hasLocation : Bool)
        (adminTok nearbyTok : Except String String)
        (adminResp nearbyResp : Except String TextResponse) (la lo : Int),
        ¬(form.name = "" ∨ form.address = "" ∨ form.latText = "" ∨ form.lonText = "" ∨
            form.tablesCountText = "" ∨ (jsParseInt form.tablesCountText).isNone) →
        r.ok = true → r.json = some b →
        (handleRegisterVenue (some uid) form (.ok tok) (.ok r) isAdmin hasLocation
            adminTok nearbyTok adminResp nearbyResp la lo).requests =
          registerVenueRequest tok form ::
            ((fetchAllVenuesForAdmin isAdmin (some uid) adminTok adminResp).requests ++
              (fetchNearbyVenues (some uid) hasLocation nearbyTok la lo nearbyResp).requests)) := by
  have hsend : ∀ (env : AuthReqEnv) (path method : String) (body : Option RequestBody),
      (sendAuthenticatedRequest env path method body).1.length ≤ 1 := by
    intro env path method body
    rcases env with ⟨uid, tok, resp⟩
    cases uid <;> cases tok <;> simp [sendAuthenticatedRequest]
    cases hok : resp.ok <;> cases hj : resp.json <;> simp [hok, hj]
  refine ⟨?_, ?_, ?_, ?_, ?_, ?_, ?_⟩
  · intro env t
    have h := hsend env ("/tables/" ++ t._id ++ "/join-queue") "POST" none
    rcases hsr : sendAuthenticatedRequest env ("/tables/" ++ t._id ++ "/join-queue") "POST" none
      with ⟨reqs, res⟩
    rw [hsr] at h
    cases res <;> simpa [handleJoinQueue, hsr] using h
  · intro env t
    have h := hsend env ("/tables/" ++ t._id ++ "/leave-queue") "POST" none
    rcases hsr : sendAuthenticatedRequest env ("/tables/" ++ t._id ++ "/leave-queue") "POST" none
      with ⟨reqs, res⟩
    rw [hsr] at h
    cases res <;> simpa [handleLeaveQueue, hsr] using h
  · intro env d
    cases d with
    | none => cases hu : env.userAuthUid <;> simp [handleConfirmWin, hu]
    | some dd =>
      cases hu : env.userAuthUid with
      | none => simp [handleConfirmWin, hu]
      | some u =>
        have h := hsend env ("/tables/" ++ dd.tableId ++ "/confirm-win") "POST"
          (some (.confirmWin dd.winnerId))
        rcases hsr : sendAuthenticatedRequest env ("/tables/" ++ dd.tableId ++ "/confirm-win")
            "POST" (some (.confirmWin dd.winnerId)) with ⟨reqs, res⟩
        rw [hsr] at h
        cases res <;> simpa [handleConfirmWin, hu, hsr] using h
  · intro env tid c b
    cases hu : env.userAuthUid with
    | none => simp [handlePayWithTokens, hu]
    | some u =>
      cases c with
      | none => simp [handlePayWithTokens, hu]
      | some cost =>
        by_cases h1 : cost ≤ 0
        · simp [handlePayWithTokens, hu, h1]
        · by_cases h2 : b < cost
          · simp [handlePayWithTokens, hu, h1, h2]
          · have h := hsend env ("/tables/" ++ tid ++ "/pay-with-tokens") "POST"
              (some (.payCost cost))
            rcases hsr : sendAuthenticatedRequest env ("/tables/" ++ tid ++ "/pay-with-tokens")
                "POST" (some (.payCost cost)) with ⟨reqs, res⟩
            rw [hsr] at h
            cases res <;> simpa [handlePayWithTokens, hu, h1, h2, hsr] using h
  · intro env t cf r hr
    cases hu : env.userAuthUid with
    | none =>
      simp [handleClaimWin, hu] at hr
      simp [← hr]
    | some u =>
      cases hcp : t.currentPlayers with
      | none => simp [handleClaimWin, hu, hcp] at hr
      | some cp =>
        by_cases hp : cp.player1Id = some u ∨ cp.player2Id = some u
        · cases cf with
          | false =>
            simp [handleClaimWin, hu, hcp, hp] at hr
            simp [← hr]
          | true =>
            have h := hsend env ("/tables/" ++ t._id ++ "/claim-win") "POST" (some .emptyObject)
            rcases hsr : sendAuthenticatedRequest env ("/tables/" ++ t._id ++ "/claim-win")
                "POST" (some .emptyObject) with ⟨reqs, res⟩
            rw [hsr] at h
            cases res <;> simp [handleClaimWin, hu, hcp, hp, hsr] at hr <;> simpa [← hr] using h
        · simp [handleClaimWin, hu, hcp, hp] at hr
          simp [← hr]
  · intro env t hu ht
    rcases Option.isSome_iff_exists.mp hu with ⟨u, hu'⟩
    rcases Option.isSome_iff_exists.mp ht with ⟨tk, ht'⟩
    have hone : ∀ path body,
        (sendAuthenticatedRequest env path "POST" body).1.length = 1 := by
      intro path body
      cases hok : env.response.ok <;> cases hj : env.response.json <;>
        simp [sendAuthenticatedRequest, hu', ht', hok, hj]
    constructor
    · have h := hone ("/tables/" ++ t._id ++ "/join-queue") none
      rcases hsr : sendAuthenticatedRequest env ("/tables/" ++ t._id ++ "/join-queue") "POST" none
        with ⟨reqs, res⟩
      rw [hsr] at h
      cases res <;> simpa [handleJoinQueue, hsr] using h
    · have h := hone ("/tables/" ++ t._id ++ "/leave-queue") none
      rcases hsr : sendAuthenticatedRequest env ("/tables/" ++ t._id ++ "/leave-queue") "POST" none
        with ⟨reqs, res⟩
      rw [hsr] at h
      cases res <;> simpa [handleLeaveQueue, hsr] using h
  · intro uid form tok r b isAdmin hasLocation adminTok nearbyTok adminResp nearbyResp la lo
      hguard hok hb
    simp only [handleRegisterVenue]
    rw [if_neg hguard]
    simp [hok, hb]

/-- C6 amended witness: a concrete authenticated join-queue invocation
issues exactly one request. -/
theorem single_request_per_operation_witness :
    (handleJoinQueue
        { userAuthUid := some "user-1", idToken := some "tok-1", response := payOkResponse }
        sampleTableA).requests.length = 1 :=
  (single_request_per_operation.2.2.2.2.2.1
      { userAuthUid := some "user-1", idToken := some "tok-1", response := payOkResponse }
      sampleTableA rfl rfl).1

end CueConnect
